import Mathlib

/-!
Shallow embedding of the coordinate-frame and geometry pipeline of
`src/client/app_util.ts` (augmented-video).  JavaScript numbers are
modelled as real numbers; the three.js vector/matrix/box helpers that the
pipeline calls are embedded following their three.js implementations.
-/

namespace AugmentedVideo

noncomputable section

open Real

/-- A 3-component vector, modelling `Three.Vector3` with real coordinates. -/
structure Vec3 where
  x : ℝ
  y : ℝ
  z : ℝ

/-- Componentwise subtraction, modelling `Vector3.subVectors(a, b)`. -/
def Vec3.sub (a b : Vec3) : Vec3 :=
  ⟨a.x - b.x, a.y - b.y, a.z - b.z⟩

/-- Cross product, modelling `Vector3.cross`. -/
def Vec3.cross (a b : Vec3) : Vec3 :=
  ⟨a.y * b.z - a.z * b.y, a.z * b.x - a.x * b.z, a.x * b.y - a.y * b.x⟩

/-- Euclidean length, modelling `Vector3.length()`. -/
def Vec3.len (v : Vec3) : ℝ :=
  Real.sqrt (v.x ^ 2 + v.y ^ 2 + v.z ^ 2)

/-- Normalization, modelling `Vector3.normalize()`:
`divideScalar(this.length() || 1)` — a zero vector is left unchanged. -/
def Vec3.normalize (v : Vec3) : Vec3 :=
  let s := if v.len = 0 then 1 else v.len
  ⟨v.x / s, v.y / s, v.z / s⟩

/-- Componentwise minimum, modelling `Vector3.min`. -/
def Vec3.vmin (a b : Vec3) : Vec3 :=
  ⟨min a.x b.x, min a.y b.y, min a.z b.z⟩

/-- Componentwise maximum, modelling `Vector3.max`. -/
def Vec3.vmax (a b : Vec3) : Vec3 :=
  ⟨max a.x b.x, max a.y b.y, max a.z b.z⟩

/-- An axis-aligned bounding box, modelling `Three.Box3`.  The freshly
constructed `new Three.Box3()` is empty (min = +∞, max = −∞ sentinels in
three.js); the embedding represents emptiness explicitly. -/
inductive Box3 where
  | empty : Box3
  | box (lo hi : Vec3) : Box3

/-- Box expansion by a point, modelling `Box3.expandByPoint`. -/
def Box3.expandByPoint (b : Box3) (p : Vec3) : Box3 :=
  match b with
  | .empty => .box p p
  | .box lo hi => .box (lo.vmin p) (hi.vmax p)

/-- Box union, modelling `Box3.union` (componentwise min of the mins and
max of the maxes; the ±∞ sentinels of an empty three.js box make it the
identity of the union). -/
def Box3.union (a b : Box3) : Box3 :=
  match a, b with
  | .empty, b => b
  | a, .empty => a
  | .box lo1 hi1, .box lo2 hi2 => .box (lo1.vmin lo2) (hi1.vmax hi2)

/-- Axis-aligned box of a list of points, modelling `Box3.setFromPoints`
and the per-vertex expansion of `BufferGeometry.computeBoundingBox`. -/
def aabbOfPoints (ps : List Vec3) : Box3 :=
  ps.foldl Box3.expandByPoint Box3.empty

/-- Union of a list of boxes, starting from the empty box. -/
def unionAll (bs : List Box3) : Box3 :=
  bs.foldl Box3.union Box3.empty

/-- The eight corner points of a box (`Box3.applyMatrix4` transforms the
eight corners and rebuilds the axis-aligned hull from them). -/
def Box3.corners (b : Box3) : List Vec3 :=
  match b with
  | .empty => []
  | .box lo hi =>
    [⟨lo.x, lo.y, lo.z⟩, ⟨lo.x, lo.y, hi.z⟩, ⟨lo.x, hi.y, lo.z⟩, ⟨lo.x, hi.y, hi.z⟩,
     ⟨hi.x, lo.y, lo.z⟩, ⟨hi.x, lo.y, hi.z⟩, ⟨hi.x, hi.y, lo.z⟩, ⟨hi.x, hi.y, hi.z⟩]

/-- Box transformation, modelling `Box3.applyMatrix4`: an empty box stays
empty, otherwise the axis-aligned hull of the transformed corners. -/
def Box3.applyTransform (b : Box3) (f : Vec3 → Vec3) : Box3 :=
  match b with
  | .empty => .empty
  | b => aabbOfPoints (b.corners.map f)

/-- A material, modelling the fields of `Three.MeshBasicMaterial` that the
pipeline sets. -/
structure Material where
  color : ℕ
  wireframe : Bool

/-- The fixed debug material installed on every rewritten mesh:
`new Three.MeshBasicMaterial({color: 0xff0000, wireframe: true})`. -/
def debugMaterial : Material :=
  ⟨0xff0000, true⟩

/-- A buffer attribute, modelling `Three.BufferAttribute`: a flat array of
numbers read `itemSize` at a time. -/
structure BufferAttribute where
  itemSize : ℕ
  data : List ℝ

/-- Number of items, modelling `BufferAttribute.count = array.length / itemSize`. -/
def BufferAttribute.count (a : BufferAttribute) : ℕ :=
  a.data.length / a.itemSize

/-- First component of item `i`, modelling `BufferAttribute.getX`. -/
def BufferAttribute.getX (a : BufferAttribute) (i : ℕ) : ℝ :=
  a.data.getD (i * a.itemSize) 0

/-- Second component of item `i`, modelling `BufferAttribute.getY`. -/
def BufferAttribute.getY (a : BufferAttribute) (i : ℕ) : ℝ :=
  a.data.getD (i * a.itemSize + 1) 0

/-- Third component of item `i`, modelling `BufferAttribute.getZ`. -/
def BufferAttribute.getZ (a : BufferAttribute) (i : ℕ) : ℝ :=
  a.data.getD (i * a.itemSize + 2) 0

/-- Item `i` as a vector. -/
def BufferAttribute.getV (a : BufferAttribute) (i : ℕ) : Vec3 :=
  ⟨a.getX i, a.getY i, a.getZ i⟩

/-- The part of `Three.BufferGeometry` that `rewriteUTMTerrainModel`
inspects: the optional `position` attribute and whether an index buffer is
present (`geometry.index` non-null). -/
structure BufferGeometry where
  position : Option BufferAttribute
  index : Bool

/-- A mesh child encountered by `model.scene.traverse`: its geometry, its
accumulated local-to-world transform (`childMesh.localToWorld` after
`updateMatrixWorld`), and its original material. -/
structure MeshNode where
  geometry : BufferGeometry
  localToWorld : Vec3 → Vec3
  material : Material

/-- A loaded Collada model, reduced to the mesh children that
`scene.traverse` visits, in traversal order (non-mesh nodes never reach
the rewriting branch). -/
abbrev Collada := List MeshNode

/-- A rewritten mesh as produced by the rewriting branch: fresh positions,
computed vertex normals, computed bounding box, and the debug material. -/
structure RewrittenMesh where
  positions : List Vec3
  normals : List Vec3
  boundingBox : Box3
  material : Material

/-- A group of rewritten meshes, modelling the `Three.Group` returned by
`rewriteUTMTerrainModel` together with the rotation later installed by
`setRotationFromQuaternion` (the group's world transform; its children sit
at the identity local transform). -/
structure Group where
  rotation : Vec3 → Vec3
  meshes : List RewrittenMesh

/-- The scene, modelling `Three.Scene` as the list of groups added to it. -/
abbrev Scene := List Group

/-- Box expansion by an object, modelling `Box3.expandByObject`: each child
mesh's geometry bounding box is transformed by the child's world matrix
(here: the group rotation, since the rewritten children carry identity
local transforms) and unioned into the accumulator. -/
def Box3.expandByObject (b : Box3) (g : Group) : Box3 :=
  g.meshes.foldl (fun acc m => acc.union (m.boundingBox.applyTransform g.rotation)) b

/-- The bounding box a single tile group contributes to the accumulator. -/
def tileBox (g : Group) : Box3 :=
  Box3.expandByObject Box3.empty g

/-- Replacing a group's rotation, modelling `setRotationFromQuaternion`
with the quaternion's rotation action on points. -/
def setRotationFromQuaternion (g : Group) (q : Vec3 → Vec3) : Group :=
  { g with rotation := q }

/-- Per-face normal used by `BufferGeometry.computeVertexNormals` on
non-indexed geometry: `cb = (pC − pB) × (pA − pB)`, then normalized. -/
def faceNormal (a b c : Vec3) : Vec3 :=
  ((c.sub b).cross (a.sub b)).normalize

/-- Vertex normals, modelling `BufferGeometry.computeVertexNormals` for
non-indexed geometry: every sequential vertex triple forms a triangle and
each of its three vertices receives the (normalized) face normal; the
embedding covers vertex counts that are a multiple of 3 (the tile
invariant), leftover vertices keeping the zero normal of the freshly
initialized normal buffer. -/
def computeVertexNormals : List Vec3 → List Vec3
  | a :: b :: c :: rest =>
    faceNormal a b c :: faceNormal a b c :: faceNormal a b c :: computeVertexNormals rest
  | rest => rest.map fun _ => ⟨0, 0, 0⟩

/-- The topology test of `rewriteUTMTerrainModel`:
`hasAttribute('position') && getAttribute('position').itemSize == 3 && !geometry.index`. -/
def supportedTopology (c : MeshNode) : Bool :=
  match c.geometry.position with
  | some a => a.itemSize == 3 && !c.geometry.index
  | none => false

/-- A projection converter, modelling `proj4.Converter`: the pipeline only
uses its `forward` triplet-to-triplet map. -/
structure Converter where
  forward : Vec3 → Vec3

/-- The error kinds surfaced by the pipeline. -/
inductive ProjError where
  | invalidZone : ProjError

/-- Modelled from the spec: the `proj4` library (outside this repository)
builds a converter from the interpolated proj-string
`+proj=utm +zone=${zone} +datum=WGS84 +units=m +no_defs` to the geocentric
string, and construction fails for a UTM zone outside 1–60 (`InvalidZone`);
the numeric projection kernel itself is not part of the repository and is
taken as a parameter `projMath`, giving the forward map of the converter
for the accepted zone. -/
def createUtmToEcefConverter (projMath : ℤ → Vec3 → Vec3) (zone : ℤ) :
    Except ProjError Converter :=
  if 1 ≤ zone ∧ zone ≤ 60 then .ok ⟨projMath zone⟩ else .error .invalidZone

/-- The per-child body of `rewriteUTMTerrainModel`'s traversal: an accepted
child (non-indexed, 3-component positions) yields a rewritten mesh — each
source vertex is taken to world space by the accumulated transform, then
through `csConv.forward`, into a fresh position buffer; vertex normals and
the bounding box are then computed from the new positions and the fixed
debug material is installed.  Any other child yields nothing. -/
def rewriteChild (csConv : Converter) (c : MeshNode) : Option RewrittenMesh :=
  match c.geometry.position with
  | some attr =>
    if attr.itemSize == 3 && !c.geometry.index then
      let positions := (List.range attr.count).map fun i =>
        csConv.forward (c.localToWorld (attr.getV i))
      some { positions := positions
             normals := computeVertexNormals positions
             boundingBox := aabbOfPoints positions
             material := debugMaterial }
    else
      none
  | none => none

/-- The warning text logged for a skipped child. -/
def warnMessage : String :=
  "Only supporting non indexed models with position"

/-- Result of `rewriteUTMTerrainModel`: the group of rewritten meshes plus
the warnings emitted along the way. -/
structure RewriteResult where
  group : Group
  warnings : List String

/-- Modelling `rewriteUTMTerrainModel`: traverse the model's mesh children
in order; accepted children are rewritten via `rewriteChild` and added to a
fresh group (at identity rotation), unsupported children produce a console
warning instead. -/
def rewriteUTMTerrainModel (model : Collada) (csConv : Converter) : RewriteResult :=
  { group := { rotation := id, meshes := model.filterMap (rewriteChild csConv) }
    warnings := (model.filter fun c => !supportedTopology c).map fun _ => warnMessage }

/-- A fetch failure (network or parse error rejected by `fetchCollada`). -/
structure FetchError where
  msg : String

/-- The tile produced for one fetched model inside the load loop: rewrite,
then install the `rotations` quaternion on the group. -/
def adjustedTile (csConv : Converter) (rotations : Vec3 → Vec3) (m : Collada) : Group :=
  setRotationFromQuaternion (rewriteUTMTerrainModel m csConv).group rotations

/-- The sequential `for` loop of `fetchRewriteAndLoadColladaTerrainTiles`:
each iteration awaits the fetch of one url, rewrites the model, sets its
rotation, adds it to the scene and expands the running bounding box, before
the next url is touched.  A failed fetch rejects the whole call, leaving
the scene as mutated so far. -/
def loadTilesLoop (fetch : String → Except FetchError Collada) (csConv : Converter)
    (rotations : Vec3 → Vec3) :
    List String → Scene → Box3 → Scene × Except FetchError Box3
  | [], scene, bBox => (scene, .ok bBox)
  | url :: rest, scene, bBox =>
    match fetch url with
    | .error e => (scene, .error e)
    | .ok origModel =>
      let adjModel := adjustedTile csConv rotations origModel
      loadTilesLoop fetch csConv rotations rest (scene ++ [adjModel])
        (bBox.expandByObject adjModel)

/-- Modelling `fetchRewriteAndLoadColladaTerrainTiles` (the spec's
`loadTileSet`): starting from an empty bounding box, loop over the urls in
input order. -/
def fetchRewriteAndLoadColladaTerrainTiles (fetch : String → Except FetchError Collada)
    (urls : List String) (csConv : Converter) (scene : Scene)
    (rotations : Vec3 → Vec3) : Scene × Except FetchError Box3 :=
  loadTilesLoop fetch csConv rotations urls scene Box3.empty

/-- Degrees to radians, modelling three.js `MathUtils.degToRad`. -/
def degToRad (d : ℝ) : ℝ :=
  d * (Real.pi / 180)

/-- Modelling `aspectRatioFromFov`: both fields of view are converted to
radians, and the ratio of the half-angle tangents is returned. -/
def aspectRatioFromFov (hFov vFov : ℝ) : ℝ :=
  Real.tan (degToRad hFov / 2) / Real.tan (degToRad vFov / 2)

/-- Modelling `calcDrawingArea`; the `window.innerWidth` and
`window.innerHeight` globals are passed as the explicit arguments
`windowWidth` and `windowHeight`.  Returns `[x, y, width, height]`. -/
def calcDrawingArea (cameraAspectRatio windowWidth windowHeight : ℝ) :
    ℝ × ℝ × ℝ × ℝ :=
  let width := windowWidth
  let height := windowHeight
  let canvasAspectRatio := width / height
  if cameraAspectRatio > canvasAspectRatio then
    let adjHeight := width * (1 / cameraAspectRatio)
    let diff := height - adjHeight
    (0, diff / 2, width, adjHeight)
  else
    let adjWidth := height * cameraAspectRatio
    let diff := width - adjWidth
    (diff / 2, 0, adjWidth, height)

/-- A 4×4 matrix of reals, modelling `Three.Matrix4`; `Matrix4.set` fills
it in row-major order and `a.multiply(b)` is the product `a * b`. -/
abbrev Mat4 := Matrix (Fin 4) (Fin 4) ℝ

/-- Modelling `Matrix4.makeRotationZ`. -/
def makeRotationZ (t : ℝ) : Mat4 :=
  !![Real.cos t, -Real.sin t, 0, 0;
     Real.sin t, Real.cos t, 0, 0;
     0, 0, 1, 0;
     0, 0, 0, 1]

/-- Modelling `Matrix4.makeRotationX`. -/
def makeRotationX (t : ℝ) : Mat4 :=
  !![1, 0, 0, 0;
     0, Real.cos t, -Real.sin t, 0;
     0, Real.sin t, Real.cos t, 0;
     0, 0, 0, 1]

/-- Modelling `matrixYPR`: the navigation yaw/pitch/roll matrix, set
row-major exactly as in the source. -/
def matrixYPR (yaw pitch roll : ℝ) : Mat4 :=
  let sy := Real.sin yaw
  let cy := Real.cos yaw
  let sp := Real.sin pitch
  let cp := Real.cos pitch
  let sr := Real.sin roll
  let cr := Real.cos roll
  !![cy * cp, cy * sp * sr - sy * cr, cy * sp * cr + sy * sr, 0;
     sy * cp, sy * sp * sr + cy * cr, sy * sp * cr - cy * sr, 0;
     -sp, cp * sr, cp * cr, 0;
     0, 0, 0, 1]

/-- Modelling `cameraRotationYPR`: in ECEF mode the YPR matrix is
post-multiplied by the fixed permutation `RotZ(π/2) · RotX(−π/2)`. -/
def cameraRotationYPR (yaw pitch roll : ℝ) (toEcef : Bool) : Mat4 :=
  if toEcef then
    let permute := makeRotationZ (Real.pi / 2) * makeRotationX (-(Real.pi / 2))
    matrixYPR yaw pitch roll * permute
  else
    matrixYPR yaw pitch roll

/-- A fetch function used as a concrete witness input: every url yields the
same one-mesh model. -/
def demoMesh : MeshNode :=
  { geometry := { position := some ⟨3, [0, 0, 0, 1, 0, 0, 0, 1, 0]⟩, index := false }
    localToWorld := id
    material := ⟨0, false⟩ }

/-- A one-mesh Collada model for witnesses. -/
def demoModel : Collada :=
  [demoMesh]

/-- A mesh child with indexed geometry, rejected by the topology check. -/
def demoIndexedMesh : MeshNode :=
  { geometry := { position := some ⟨3, [0, 0, 0, 1, 0, 0, 0, 1, 0]⟩, index := true }
    localToWorld := id
    material := ⟨0, false⟩ }

/-- An identity converter for witnesses. -/
def demoConv : Converter :=
  ⟨id⟩

/-- An always-successful fetch for witnesses. -/
def demoFetch : String → Except FetchError Collada :=
  fun _ => .ok demoModel

/-- A fetch that fails on the url `"bad"` and succeeds elsewhere. -/
def demoFetchFail : String → Except FetchError Collada :=
  fun u => if u = "bad" then .error ⟨"network error"⟩ else .ok demoModel

/-! Theorems -/

/-- Union with the empty box on the right is the identity. -/
theorem Box3.union_empty_right (b : Box3) : b.union .empty = b := by
  cases b <;> rfl

/-- Union with the empty box on the left is the identity. -/
theorem Box3.union_empty_left (b : Box3) : Box3.union .empty b = b := by
  cases b <;> rfl

/-- Box union is associative. -/
theorem Box3.union_assoc (a b c : Box3) :
    (a.union b).union c = a.union (b.union c) := by
  cases a <;> cases b <;> cases c <;>
    simp [Box3.union, Vec3.vmin, Vec3.vmax, min_assoc, max_assoc]

/-- Folding union over a list factors through `unionAll`. -/
theorem foldl_union (bs : List Box3) (b : Box3) :
    bs.foldl Box3.union b = b.union (unionAll bs) := by
  induction bs generalizing b with
  | nil =>
    show b = b.union (unionAll [])
    rw [show unionAll [] = Box3.empty from rfl, Box3.union_empty_right]
  | cons x bs ih =>
    have hx : unionAll (x :: bs) = x.union (unionAll bs) := by
      show bs.foldl Box3.union (Box3.union .empty x) = _
      rw [Box3.union_empty_left, ih x]
    rw [List.foldl_cons, ih (b.union x), hx, Box3.union_assoc]

/-- Peeling one box off `unionAll`. -/
theorem unionAll_cons (x : Box3) (bs : List Box3) :
    unionAll (x :: bs) = x.union (unionAll bs) := by
  show bs.foldl Box3.union (Box3.union .empty x) = _
  rw [Box3.union_empty_left, foldl_union]

/-- Expanding a box by an object is union with the object's own box. -/
theorem expandByObject_eq_union (b : Box3) (g : Group) :
    b.expandByObject g = b.union (tileBox g) := by
  have key : ∀ (l : List RewrittenMesh) (b : Box3),
      l.foldl (fun acc m => acc.union (m.boundingBox.applyTransform g.rotation)) b
        = b.union (unionAll (l.map fun m => m.boundingBox.applyTransform g.rotation)) := by
    intro l
    induction l with
    | nil =>
      intro b
      show b = b.union (unionAll [])
      rw [show unionAll [] = Box3.empty from rfl, Box3.union_empty_right]
    | cons m l ih =>
      intro b
      rw [List.foldl_cons, List.map_cons, ih, unionAll_cons, Box3.union_assoc]
  show g.meshes.foldl _ b = b.union (g.meshes.foldl _ Box3.empty)
  rw [key, key, Box3.union_empty_left]

/-- Folding `expandByObject` over tile groups factors through the union of
the individual tile boxes. -/
theorem foldl_expandByObject (gs : List Group) (b : Box3) :
    gs.foldl Box3.expandByObject b = b.union (unionAll (gs.map tileBox)) := by
  induction gs generalizing b with
  | nil =>
    show b = b.union (unionAll [])
    rw [show unionAll [] = Box3.empty from rfl, Box3.union_empty_right]
  | cons g gs ih =>
    rw [List.foldl_cons, List.map_cons, expandByObject_eq_union, ih, unionAll_cons,
      Box3.union_assoc]

/-- Unfolding the load loop on a url whose fetch succeeds. -/
theorem loadTilesLoop_cons_ok (fetch : String → Except FetchError Collada)
    (csConv : Converter) (rot : Vec3 → Vec3) (u : String) (rest : List String)
    (scene : Scene) (b : Box3) (m : Collada) (hm : fetch u = .ok m) :
    loadTilesLoop fetch csConv rot (u :: rest) scene b
      = loadTilesLoop fetch csConv rot rest (scene ++ [adjustedTile csConv rot m])
          (b.expandByObject (adjustedTile csConv rot m)) := by
  have h : loadTilesLoop fetch csConv rot (u :: rest) scene b
      = match fetch u with
        | .error e => (scene, .error e)
        | .ok origModel =>
          loadTilesLoop fetch csConv rot rest
            (scene ++ [adjustedTile csConv rot origModel])
            (b.expandByObject (adjustedTile csConv rot origModel)) := rfl
  rw [h, hm]

/-- Unfolding the load loop on a url whose fetch fails. -/
theorem loadTilesLoop_cons_err (fetch : String → Except FetchError Collada)
    (csConv : Converter) (rot : Vec3 → Vec3) (u : String) (rest : List String)
    (scene : Scene) (b : Box3) (e : FetchError) (hm : fetch u = .error e) :
    loadTilesLoop fetch csConv rot (u :: rest) scene b = (scene, .error e) := by
  have h : loadTilesLoop fetch csConv rot (u :: rest) scene b
      = match fetch u with
        | .error e => (scene, .error e)
        | .ok origModel =>
          loadTilesLoop fetch csConv rot rest
            (scene ++ [adjustedTile csConv rot origModel])
            (b.expandByObject (adjustedTile csConv rot origModel)) := rfl
  rw [h, hm]

/-- The load loop on a prefix of successfully fetched urls: the tiles of
the prefix are appended to the scene, the running box is expanded by
each, and the loop continues with the rest of the urls. -/
theorem loadTilesLoop_seq (fetch : String → Except FetchError Collada)
    (csConv : Converter) (rot : Vec3 → Vec3) :
    ∀ (urls : List String) (models : List Collada),
      List.Forall₂ (fun u m => fetch u = .ok m) urls models →
      ∀ (rest : List String) (scene : Scene) (b : Box3),
        loadTilesLoop fetch csConv rot (urls ++ rest) scene b
          = loadTilesLoop fetch csConv rot rest
              (scene ++ models.map (adjustedTile csConv rot))
              ((models.map (adjustedTile csConv rot)).foldl Box3.expandByObject b) := by
  intro urls models hf
  induction hf with
  | nil => intro rest scene b; simp
  | cons hum htail ih =>
    intro rest scene b
    rw [List.cons_append, loadTilesLoop_cons_ok _ _ _ _ _ _ _ _ hum, ih, List.map_cons,
      List.foldl_cons, List.append_assoc, List.singleton_append]

/-- The load loop on a list of successfully fetched urls returns the
appended scene and the expanded box. -/
theorem loadTilesLoop_ok (fetch : String → Except FetchError Collada)
    (csConv : Converter) (rot : Vec3 → Vec3)
    (urls : List String) (models : List Collada)
    (hf : List.Forall₂ (fun u m => fetch u = .ok m) urls models)
    (scene : Scene) (b : Box3) :
    loadTilesLoop fetch csConv rot urls scene b
      = (scene ++ models.map (adjustedTile csConv rot),
         .ok ((models.map (adjustedTile csConv rot)).foldl Box3.expandByObject b)) := by
  have h := loadTilesLoop_seq fetch csConv rot urls models hf [] scene b
  rw [List.append_nil] at h
  exact h

/-- C3: `fetchRewriteAndLoadColladaTerrainTiles` returns the accumulated
bounding box while the rewritten tiles are added to the scene; an empty
url list leaves the scene unchanged and yields the empty bounding box, and
for a successfully fetched url list the returned box is the union of each
individual rewritten tile's bounding box and the tiles are appended to the
scene in input order. -/
theorem loadTileSet_box (fetch : String → Except FetchError Collada)
    (csConv : Converter) (rot : Vec3 → Vec3) (scene : Scene) :
    fetchRewriteAndLoadColladaTerrainTiles fetch [] csConv scene rot
      = (scene, .ok Box3.empty)
    ∧ ∀ (urls : List String) (models : List Collada),
        List.Forall₂ (fun u m => fetch u = .ok m) urls models →
        fetchRewriteAndLoadColladaTerrainTiles fetch urls csConv scene rot
          = (scene ++ models.map (adjustedTile csConv rot),
             .ok (unionAll ((models.map (adjustedTile csConv rot)).map tileBox))) := by
  constructor
  · rfl
  · intro urls models hf
    unfold fetchRewriteAndLoadColladaTerrainTiles
    rw [loadTilesLoop_ok fetch csConv rot urls models hf scene Box3.empty,
      foldl_expandByObject, Box3.union_empty_left]

/-- Witness for C3: one url fetched through the always-successful fetch;
the resulting box is the union of the single tile's box. -/
theorem loadTileSet_box_witness :
    fetchRewriteAndLoadColladaTerrainTiles demoFetch ["a"] demoConv [] id
      = ([adjustedTile demoConv id demoModel],
         .ok (unionAll ([adjustedTile demoConv id demoModel].map tileBox))) :=
  (loadTileSet_box demoFetch demoConv id []).2 ["a"] [demoModel]
    (List.Forall₂.cons rfl List.Forall₂.nil)

/-- C7: the load loop is a strictly sequential fold over the urls in input
order (each iteration's rewrite, rotation, scene append and box expansion
feed the next), and if the fetch of some url fails, the call rejects with
that error: the returned value carries no tile list. -/
theorem loadTileSet_failfast (fetch : String → Except FetchError Collada)
    (csConv : Converter) (rot : Vec3 → Vec3) (scene : Scene)
    (us1 us2 : List String) (u : String) (models : List Collada) (e : FetchError)
    (hok : List.Forall₂ (fun u m => fetch u = .ok m) us1 models)
    (hbad : fetch u = .error e) :
    (fetchRewriteAndLoadColladaTerrainTiles fetch (us1 ++ u :: us2) csConv scene rot).2
      = .error e := by
  unfold fetchRewriteAndLoadColladaTerrainTiles
  rw [loadTilesLoop_seq fetch csConv rot us1 models hok (u :: us2) scene Box3.empty,
    loadTilesLoop_cons_err _ _ _ _ _ _ _ _ hbad]

/-- Witness for C7: the second of three urls fails, and the whole call
returns that error. -/
theorem loadTileSet_failfast_witness :
    (fetchRewriteAndLoadColladaTerrainTiles demoFetchFail (["a"] ++ "bad" :: ["c"])
        demoConv [] id).2 = .error ⟨"network error"⟩ :=
  loadTileSet_failfast demoFetchFail demoConv id [] ["a"] ["c"] "bad" [demoModel]
    ⟨"network error"⟩ (List.Forall₂.cons rfl List.Forall₂.nil) rfl

/-- C10: if the fetch of the i-th url fails, the groups already rewritten
for the preceding urls remain added to the scene — the error propagates
but the scene mutations are not rolled back. -/
theorem loadTileSet_scene_keeps_tiles (fetch : String → Except FetchError Collada)
    (csConv : Converter) (rot : Vec3 → Vec3) (scene : Scene)
    (us1 us2 : List String) (u : String) (models : List Collada) (e : FetchError)
    (hok : List.Forall₂ (fun u m => fetch u = .ok m) us1 models)
    (hbad : fetch u = .error e) :
    (fetchRewriteAndLoadColladaTerrainTiles fetch (us1 ++ u :: us2) csConv scene rot).1
      = scene ++ models.map (adjustedTile csConv rot)
    ∧ (fetchRewriteAndLoadColladaTerrainTiles fetch (us1 ++ u :: us2) csConv scene rot).2
      = .error e := by
  unfold fetchRewriteAndLoadColladaTerrainTiles
  rw [loadTilesLoop_seq fetch csConv rot us1 models hok (u :: us2) scene Box3.empty,
    loadTilesLoop_cons_err _ _ _ _ _ _ _ _ hbad]
  exact ⟨rfl, rfl⟩

/-- Witness for C10: with the second url failing, the first url's tile is
still in the scene while the call rejects. -/
theorem loadTileSet_scene_keeps_tiles_witness :
    (fetchRewriteAndLoadColladaTerrainTiles demoFetchFail (["a"] ++ "bad" :: ["c"])
        demoConv [] id).1 = [] ++ [demoModel].map (adjustedTile demoConv id)
    ∧ (fetchRewriteAndLoadColladaTerrainTiles demoFetchFail (["a"] ++ "bad" :: ["c"])
        demoConv [] id).2 = .error ⟨"network error"⟩ :=
  loadTileSet_scene_keeps_tiles demoFetchFail demoConv id [] ["a"] ["c"] "bad" [demoModel]
    ⟨"network error"⟩ (List.Forall₂.cons rfl List.Forall₂.nil) rfl

/-- Conversion of the literal 90° to radians. -/
theorem degToRad_ninety : degToRad 90 = Real.pi / 2 := by
  unfold degToRad; ring

/-- Conversion of the literal −90° to radians. -/
theorem degToRad_neg_ninety : degToRad (-90) = -(Real.pi / 2) := by
  unfold degToRad; ring

/-- C1: for every yaw, pitch, roll in radians, `cameraRotationYPR` with
`toEcef = true` equals `matrixYPR(yaw, pitch, roll)` multiplied on the
right by the fixed permutation `P = RotZ(90°) · RotX(−90°)`, and with
`toEcef = false` it equals `matrixYPR(yaw, pitch, roll)` alone. -/
theorem cameraRotationYPR_modes (y p r : ℝ) :
    cameraRotationYPR y p r true
      = matrixYPR y p r * (makeRotationZ (degToRad 90) * makeRotationX (degToRad (-90)))
    ∧ cameraRotationYPR y p r false = matrixYPR y p r := by
  refine ⟨?_, rfl⟩
  rw [degToRad_ninety, degToRad_neg_ninety]
  rfl

/-- The navigation YPR matrix at zero angles is the identity. -/
theorem matrixYPR_zero : matrixYPR 0 0 0 = 1 := by
  ext i j
  fin_cases i <;> fin_cases j <;>
    simp [matrixYPR, Matrix.one_apply, Matrix.vecHead, Matrix.vecTail]

/-- C2: the 3×3 rotation part of `matrixYPR(yaw, pitch, roll)` equals the
spec's closed-form row-major entries; in particular `matrixYPR(0, 0, 0)`
is the identity matrix, so the geocentric-mode camera rotation at zero
yaw/pitch/roll equals exactly the fixed permutation
`P = RotZ(90°) · RotX(−90°)`. -/
theorem matrixYPR_entries (y p r : ℝ) :
    (matrixYPR y p r 0 0 = Real.cos y * Real.cos p
      ∧ matrixYPR y p r 0 1 = Real.cos y * Real.sin p * Real.sin r - Real.sin y * Real.cos r
      ∧ matrixYPR y p r 0 2 = Real.cos y * Real.sin p * Real.cos r + Real.sin y * Real.sin r
      ∧ matrixYPR y p r 1 0 = Real.sin y * Real.cos p
      ∧ matrixYPR y p r 1 1 = Real.sin y * Real.sin p * Real.sin r + Real.cos y * Real.cos r
      ∧ matrixYPR y p r 1 2 = Real.sin y * Real.sin p * Real.cos r - Real.cos y * Real.sin r
      ∧ matrixYPR y p r 2 0 = -Real.sin p
      ∧ matrixYPR y p r 2 1 = Real.cos p * Real.sin r
      ∧ matrixYPR y p r 2 2 = Real.cos p * Real.cos r)
    ∧ matrixYPR 0 0 0 = 1
    ∧ cameraRotationYPR 0 0 0 true
        = makeRotationZ (degToRad 90) * makeRotationX (degToRad (-90)) := by
  refine ⟨⟨rfl, rfl, rfl, rfl, rfl, rfl, rfl, rfl, rfl⟩, matrixYPR_zero, ?_⟩
  rw [degToRad_ninety, degToRad_neg_ninety]
  show matrixYPR 0 0 0 * _ = _
  rw [matrixYPR_zero, one_mul]

/-- Bounds on the half field-of-view angle in radians for a field of view
in the open interval (0°, 180°). -/
theorem half_fov_mem (a : ℝ) (ha0 : 0 < a) (ha1 : a < 180) :
    0 < degToRad a / 2 ∧ degToRad a / 2 < Real.pi / 2 := by
  have hp : (0 : ℝ) < Real.pi := Real.pi_pos
  have he : degToRad a / 2 = a * (Real.pi / 360) := by unfold degToRad; ring
  have h360 : (0 : ℝ) < Real.pi / 360 := by positivity
  constructor
  · rw [he]; positivity
  · rw [he]
    have := mul_lt_mul_of_pos_right ha1 h360
    have h180 : (180 : ℝ) * (Real.pi / 360) = Real.pi / 2 := by ring
    linarith

/-- Positivity of the half-angle tangent for a field of view in (0°, 180°). -/
theorem tan_half_fov_pos (a : ℝ) (ha0 : 0 < a) (ha1 : a < 180) :
    0 < Real.tan (degToRad a / 2) := by
  obtain ⟨h1, h2⟩ := half_fov_mem a ha0 ha1
  exact Real.tan_pos_of_pos_of_lt_pi_div_two h1 h2

/-- Strict monotonicity of the half-angle tangent on (0°, 180°). -/
theorem tan_half_fov_lt (a b : ℝ) (ha0 : 0 < a) (hab : a < b) (hb1 : b < 180) :
    Real.tan (degToRad a / 2) < Real.tan (degToRad b / 2) := by
  obtain ⟨ha1, _⟩ := half_fov_mem a ha0 (by linarith)
  obtain ⟨_, hb2⟩ := half_fov_mem b (by linarith) hb1
  have harad : degToRad a / 2 < degToRad b / 2 := by
    unfold degToRad
    have hp : (0 : ℝ) < Real.pi / 360 := by positivity
    have := mul_lt_mul_of_pos_right hab hp
    ring_nf
    ring_nf at this
    linarith
  exact Real.tan_lt_tan_of_lt_of_lt_pi_div_two (by linarith) hb2 harad

/-- C6: for all h, v in (0°, 180°), `aspectRatioFromFov h v` equals
`tan(h/2)/tan(v/2)` with the angles converted to radians, and the result
is strictly increasing in the horizontal field of view and strictly
decreasing in the vertical field of view. -/
theorem aspectRatioFromFov_spec (h v h2 v2 : ℝ)
    (hh0 : 0 < h) (hh1 : h < 180) (hv0 : 0 < v) (hv1 : v < 180)
    (hh2 : h2 < 180) (hlt : h < h2) (hv2 : v2 < 180) (vlt : v < v2) :
    aspectRatioFromFov h v = Real.tan (degToRad h / 2) / Real.tan (degToRad v / 2)
    ∧ aspectRatioFromFov h v < aspectRatioFromFov h2 v
    ∧ aspectRatioFromFov h v2 < aspectRatioFromFov h v := by
  refine ⟨rfl, ?_, ?_⟩
  · exact (div_lt_div_iff_of_pos_right (tan_half_fov_pos v hv0 hv1)).mpr
      (tan_half_fov_lt h h2 hh0 hlt hh2)
  · exact div_lt_div_of_pos_left (tan_half_fov_pos h hh0 hh1)
      (tan_half_fov_pos v hv0 hv1) (tan_half_fov_lt v v2 hv0 vlt hv2)

/-- Witness for C6 at `hfov = 40°, vfov = 30°` against `hfov = 60°` and
`vfov = 45°`. -/
theorem aspectRatioFromFov_spec_witness :
    aspectRatioFromFov 40 30 = Real.tan (degToRad 40 / 2) / Real.tan (degToRad 30 / 2)
    ∧ aspectRatioFromFov 40 30 < aspectRatioFromFov 60 30
    ∧ aspectRatioFromFov 40 45 < aspectRatioFromFov 40 30 :=
  aspectRatioFromFov_spec 40 30 60 45 (by norm_num) (by norm_num) (by norm_num)
    (by norm_num) (by norm_num) (by norm_num) (by norm_num) (by norm_num)

/-- C5: for every positive window size and camera aspect ratio,
`calcDrawingArea` keeps the window width and shrinks the height (vertically
centered) when the camera view is wider than the window, and keeps the
window height and shrinks the width (horizontally centered) otherwise; in
both cases the rectangle is contained in the window, has the requested
aspect ratio exactly (real arithmetic), and the margins on each axis are
equal. -/
theorem calcDrawingArea_spec (ar w h : ℝ) (hw : 0 < w) (hh : 0 < h) (har : 0 < ar) :
    (ar > w / h →
      calcDrawingArea ar w h = (0, (h - w * (1 / ar)) / 2, w, w * (1 / ar)))
    ∧ (¬ ar > w / h →
      calcDrawingArea ar w h = ((w - h * ar) / 2, 0, h * ar, h))
    ∧ 0 ≤ (calcDrawingArea ar w h).1
    ∧ 0 ≤ (calcDrawingArea ar w h).2.1
    ∧ (calcDrawingArea ar w h).1 + (calcDrawingArea ar w h).2.2.1 ≤ w
    ∧ (calcDrawingArea ar w h).2.1 + (calcDrawingArea ar w h).2.2.2 ≤ h
    ∧ (calcDrawingArea ar w h).2.2.1 / (calcDrawingArea ar w h).2.2.2 = ar
    ∧ 2 * (calcDrawingArea ar w h).2.1 + (calcDrawingArea ar w h).2.2.2 = h
    ∧ 2 * (calcDrawingArea ar w h).1 + (calcDrawingArea ar w h).2.2.1 = w := by
  have hwne : w ≠ 0 := ne_of_gt hw
  have hhne : h ≠ 0 := ne_of_gt hh
  have harne : ar ≠ 0 := ne_of_gt har
  by_cases hc : ar > w / h
  · have hc2 : w / h < ar := hc
    have he : calcDrawingArea ar w h = (0, (h - w * (1 / ar)) / 2, w, w * (1 / ar)) := by
      simp only [calcDrawingArea]
      rw [if_pos hc]
    have hmul : w * (1 / ar) = w / ar := mul_one_div w ar
    have hwar : w / ar < h := by
      rw [div_lt_iff₀ hh] at hc2
      rw [div_lt_iff₀ har]
      linarith
    refine ⟨fun _ => he, fun hcon => absurd hc hcon, ?_, ?_, ?_, ?_, ?_, ?_, ?_⟩ <;>
      rw [he]
    · show 0 ≤ (h - w * (1 / ar)) / 2
      rw [hmul]; linarith
    · show 0 + w ≤ w
      norm_num
    · show (h - w * (1 / ar)) / 2 + w * (1 / ar) ≤ h
      rw [hmul]; linarith
    · show w / (w * (1 / ar)) = ar
      rw [hmul, div_div_eq_mul_div, mul_comm w ar, mul_div_assoc, div_self hwne, mul_one]
    · show 2 * ((h - w * (1 / ar)) / 2) + w * (1 / ar) = h
      ring
    · show 2 * 0 + w = w
      norm_num
  · have he : calcDrawingArea ar w h = ((w - h * ar) / 2, 0, h * ar, h) := by
      simp only [calcDrawingArea]
      rw [if_neg hc]
    have hle : ar ≤ w / h := le_of_not_lt hc
    have hhar : h * ar ≤ w := by
      rw [le_div_iff₀ hh] at hle
      linarith
    refine ⟨fun hcon => absurd hcon hc, fun _ => he, ?_, ?_, ?_, ?_, ?_, ?_, ?_⟩ <;>
      rw [he]
    · show 0 ≤ (w - h * ar) / 2
      linarith
    · show (w - h * ar) / 2 + h * ar ≤ w
      linarith
    · show 0 + h ≤ h
      norm_num
    · show h * ar / h = ar
      rw [mul_comm h ar, mul_div_assoc, div_self hhne, mul_one]
    · show 2 * 0 + h = h
      norm_num
    · show 2 * ((w - h * ar) / 2) + h * ar = w
      ring

/-- Witness for C5 at a 1920×1080 window with camera aspect ratio 2
(camera wider than the window) evaluated through the theorem. -/
theorem calcDrawingArea_spec_witness :
    ((2 : ℝ) > 1920 / 1080 →
      calcDrawingArea 2 1920 1080 = (0, (1080 - 1920 * (1 / 2)) / 2, 1920, 1920 * (1 / 2)))
    ∧ (¬ (2 : ℝ) > 1920 / 1080 →
      calcDrawingArea 2 1920 1080 = ((1920 - 1080 * 2) / 2, 0, 1080 * 2, 1080))
    ∧ 0 ≤ (calcDrawingArea 2 1920 1080).1
    ∧ 0 ≤ (calcDrawingArea 2 1920 1080).2.1
    ∧ (calcDrawingArea 2 1920 1080).1 + (calcDrawingArea 2 1920 1080).2.2.1 ≤ 1920
    ∧ (calcDrawingArea 2 1920 1080).2.1 + (calcDrawingArea 2 1920 1080).2.2.2 ≤ 1080
    ∧ (calcDrawingArea 2 1920 1080).2.2.1 / (calcDrawingArea 2 1920 1080).2.2.2 = 2
    ∧ 2 * (calcDrawingArea 2 1920 1080).2.1 + (calcDrawingArea 2 1920 1080).2.2.2 = 1080
    ∧ 2 * (calcDrawingArea 2 1920 1080).1 + (calcDrawingArea 2 1920 1080).2.2.1 = 1920 :=
  calcDrawingArea_spec 2 1920 1080 (by norm_num) (by norm_num) (by norm_num)

/-- C4: for every accepted mesh (3-component, non-indexed position data),
output vertex i is `converter.forward` of the accumulated local-to-world
transform of input vertex i, in a fresh position buffer with one entry per
input vertex; the normals are recomputed from the new positions, the
bounding box is recomputed from the new positions, and the material is the
fixed debug material. -/
theorem rewriteChild_spec (csConv : Converter) (c : MeshNode) (attr : BufferAttribute)
    (hpos : c.geometry.position = some attr) (hsize : attr.itemSize = 3)
    (hidx : c.geometry.index = false) (i : ℕ) (hi : i < attr.count) :
    ∃ m, rewriteChild csConv c = some m
      ∧ m.positions.length = attr.count
      ∧ m.positions.getD i ⟨0, 0, 0⟩ = csConv.forward (c.localToWorld (attr.getV i))
      ∧ m.normals = computeVertexNormals m.positions
      ∧ m.boundingBox = aabbOfPoints m.positions
      ∧ m.material = debugMaterial
      ∧ (rewriteUTMTerrainModel [c] csConv).group.meshes = [m] := by
  have hcond : (attr.itemSize == 3 && !c.geometry.index) = true := by
    rw [hsize, hidx]
    rfl
  have he : rewriteChild csConv c
      = some { positions := (List.range attr.count).map fun i =>
                 csConv.forward (c.localToWorld (attr.getV i))
               normals := computeVertexNormals ((List.range attr.count).map fun i =>
                 csConv.forward (c.localToWorld (attr.getV i)))
               boundingBox := aabbOfPoints ((List.range attr.count).map fun i =>
                 csConv.forward (c.localToWorld (attr.getV i)))
               material := debugMaterial } := by
    simp only [rewriteChild, hpos, hcond, if_true]
  refine ⟨_, he, ?_, ?_, rfl, rfl, rfl, ?_⟩
  · rw [List.length_map, List.length_range]
  · have hlen : i < ((List.range attr.count).map fun i =>
        csConv.forward (c.localToWorld (attr.getV i))).length := by
      rw [List.length_map, List.length_range]
      exact hi
    rw [List.getD_eq_getElem _ _ hlen, List.getElem_map, List.getElem_range]
  · show List.filterMap (rewriteChild csConv) [c] = _
    rw [List.filterMap_cons, he]
    rfl

/-- Witness for C4: the identity converter applied to a one-triangle mesh,
read at vertex 0. -/
theorem rewriteChild_spec_witness :
    ∃ m, rewriteChild demoConv demoMesh = some m
      ∧ m.positions.length = (⟨3, [0, 0, 0, 1, 0, 0, 0, 1, 0]⟩ : BufferAttribute).count
      ∧ m.positions.getD 0 ⟨0, 0, 0⟩
          = demoConv.forward (demoMesh.localToWorld
              ((⟨3, [0, 0, 0, 1, 0, 0, 0, 1, 0]⟩ : BufferAttribute).getV 0))
      ∧ m.normals = computeVertexNormals m.positions
      ∧ m.boundingBox = aabbOfPoints m.positions
      ∧ m.material = debugMaterial
      ∧ (rewriteUTMTerrainModel [demoMesh] demoConv).group.meshes = [m] :=
  rewriteChild_spec demoConv demoMesh ⟨3, [0, 0, 0, 1, 0, 0, 0, 1, 0]⟩ rfl rfl rfl 0
    (by decide)

/-- C8: a mesh child with missing, non-3-component, or indexed position
data produces no output tile and one recorded warning, and its presence
leaves the rewritten meshes of the other children untouched. -/
theorem rewriteUTMTerrainModel_skips (csConv : Converter) (pre post : Collada)
    (c : MeshNode) (hbad : supportedTopology c = false) :
    rewriteChild csConv c = none
    ∧ (rewriteUTMTerrainModel (pre ++ c :: post) csConv).group.meshes
        = (rewriteUTMTerrainModel (pre ++ post) csConv).group.meshes
    ∧ (rewriteUTMTerrainModel (pre ++ c :: post) csConv).warnings.length
        = (rewriteUTMTerrainModel (pre ++ post) csConv).warnings.length + 1 := by
  have hnone : rewriteChild csConv c = none := by
    rcases hp : c.geometry.position with _ | a
    · simp only [rewriteChild, hp]
    · have hb : (a.itemSize == 3 && !c.geometry.index) = false := by
        have h2 := hbad
        unfold supportedTopology at h2
        rw [hp] at h2
        exact h2
      simp [rewriteChild, hp, hb]
  refine ⟨hnone, ?_, ?_⟩
  · show List.filterMap _ (pre ++ c :: post) = List.filterMap _ (pre ++ post)
    rw [List.filterMap_append, List.filterMap_append, List.filterMap_cons, hnone]
  · have hpc : (!supportedTopology c) = true := by rw [hbad]; rfl
    show (List.map _ (List.filter _ (pre ++ c :: post))).length
        = (List.map _ (List.filter _ (pre ++ post))).length + 1
    simp only [List.filter_append, List.filter_cons, hpc, if_true, List.map_append,
      List.map_cons, List.length_append, List.length_cons, List.length_map]
    omega

/-- Witness for C8: an indexed mesh between two well-formed models is
skipped with one warning while the good mesh is still rewritten. -/
theorem rewriteUTMTerrainModel_skips_witness :
    rewriteChild demoConv demoIndexedMesh = none
    ∧ (rewriteUTMTerrainModel ([demoMesh] ++ demoIndexedMesh :: []) demoConv).group.meshes
        = (rewriteUTMTerrainModel ([demoMesh] ++ []) demoConv).group.meshes
    ∧ (rewriteUTMTerrainModel ([demoMesh] ++ demoIndexedMesh :: []) demoConv).warnings.length
        = (rewriteUTMTerrainModel ([demoMesh] ++ []) demoConv).warnings.length + 1 :=
  rewriteUTMTerrainModel_skips demoConv [demoMesh] [] demoIndexedMesh rfl

/-- C9: construction of the UTM-to-ECEF converter fails with `InvalidZone`
for a zone outside 1–60 and succeeds for a zone in 1–60, yielding the pure
converter whose forward map is the projection kernel at that zone. -/
theorem createUtmToEcefConverter_spec (projMath : ℤ → Vec3 → Vec3) (zone : ℤ) :
    ((zone < 1 ∨ 60 < zone) →
      createUtmToEcefConverter projMath zone = .error .invalidZone)
    ∧ (1 ≤ zone → zone ≤ 60 →
      createUtmToEcefConverter projMath zone = .ok ⟨projMath zone⟩) := by
  constructor
  · intro hz
    unfold createUtmToEcefConverter
    rw [if_neg]
    rintro ⟨h1, h2⟩
    rcases hz with hz | hz <;> omega
  · intro h1 h2
    unfold createUtmToEcefConverter
    rw [if_pos ⟨h1, h2⟩]

/-- Witness for C9: zone 61 is rejected and zone 33 (the zone used by the
demo) is accepted. -/
theorem createUtmToEcefConverter_spec_witness :
    createUtmToEcefConverter (fun _ => id) 61 = .error .invalidZone
    ∧ createUtmToEcefConverter (fun _ => id) 33 = .ok ⟨id⟩ :=
  ⟨(createUtmToEcefConverter_spec (fun _ => id) 61).1 (Or.inr (by norm_num)),
   (createUtmToEcefConverter_spec (fun _ => id) 33).2 (by norm_num) (by norm_num)⟩

end

end AugmentedVideo
